import Mathlib

/-!
Verification of the `observability` Go package (logger, tracer, metrics
facades and the initialization/shutdown orchestrator) against its
natural-language specification.

The Go source is shallowly embedded: pure functions become Lean functions,
receiver-mutating methods become state-passing functions, and results of
external collaborators (file system, OTLP exporters) are parameters of the
model.  Machine integers and identifier byte arrays are modelled as `Nat`
with explicit `% 2^w` where width matters; Go's `float64` sampling rate is
modelled as `ℚ` (every finite float is a rational and the code performs only
comparisons, no float arithmetic; NaN is outside the model).
-/

namespace Observability

/-! ## Trace and span identifiers (tracer.go, part_001)

`trace.TraceID` is a 16-byte array, `trace.SpanID` an 8-byte array.
`TraceID.String`/`SpanID.String` hex-encode the bytes, always yielding a
fixed-length lower-case hex string (32 resp. 16 characters). -/

/-- One lower-case hexadecimal digit. -/
def hexDigit (n : Nat) : Char :=
  if n < 10 then Char.ofNat (48 + n) else Char.ofNat (87 + n)

/-- Big-endian fixed-width hex encoding: `hexChars d v` is the `d`-digit
lower-case hex spelling of `v`'s low `d` nibbles. -/
def hexChars : Nat → Nat → List Char
  | 0, _ => []
  | d + 1, v => hexChars d (v / 16) ++ [hexDigit (v % 16)]

/-- `trace.TraceID.String`: hex encoding of the 16 id bytes (32 digits). -/
def traceIDString (t : Nat) : String := ⟨hexChars 32 (t % 2 ^ 128)⟩

/-- `trace.SpanID.String`: hex encoding of the 8 id bytes (16 digits). -/
def spanIDString (s : Nat) : String := ⟨hexChars 16 (s % 2 ^ 64)⟩

/-- `trace.SpanContext`, reduced to the two identifiers the package reads.
The ids are the integer values of the 16- resp. 8-byte arrays. -/
structure SpanContext where
  traceID : Nat
  spanID : Nat
deriving Repr, DecidableEq

/-- `trace.SpanContext.IsValid`: both the trace id and the span id must be
non-zero (Go checks that the byte arrays are not all zeros). -/
def SpanContext.isValid (sc : SpanContext) : Bool :=
  decide (sc.traceID % 2 ^ 128 ≠ 0) && decide (sc.spanID % 2 ^ 64 ≠ 0)

/-- A `context.Context`, reduced to what this package reads from it: the
span context that `trace.SpanContextFromContext` would return (the zero,
invalid `SpanContext` when the context carries no span). -/
structure Context where
  spanContext : SpanContext
deriving Repr, DecidableEq

/-- `trace.SpanContextFromContext` on the embedded context. -/
def SpanContextFromContext (ctx : Context) : SpanContext := ctx.spanContext

/-- Package-level `GetTraceID` (part_001 lines 131-138). -/
def GetTraceID (ctx : Context) : String :=
  let spanCtx := SpanContextFromContext ctx
  if spanCtx.isValid then traceIDString spanCtx.traceID else ""

/-- Package-level `GetSpanID` (part_001 lines 140-147). -/
def GetSpanID (ctx : Context) : String :=
  let spanCtx := SpanContextFromContext ctx
  if spanCtx.isValid then spanIDString spanCtx.spanID else ""

/-- The `Tracer` facade (tracer.go).  The underlying backend tracer handle
is not consulted by any of the embedded methods, so only the name is kept. -/
structure Tracer where
  name : String
deriving Repr, DecidableEq

/-- `NewTracer` (tracer.go lines 17-22). -/
def NewTracer (name : String) : Tracer := ⟨name⟩

/-- Method `Tracer.GetTraceID` (tracer.go lines 40-46). -/
def Tracer.GetTraceID (_t : Tracer) (ctx : Context) : String :=
  let spanCtx := SpanContextFromContext ctx
  if spanCtx.isValid then traceIDString spanCtx.traceID else ""

/-- Method `Tracer.GetSpanID` (tracer.go lines 49-55). -/
def Tracer.GetSpanID (_t : Tracer) (ctx : Context) : String :=
  let spanCtx := SpanContextFromContext ctx
  if spanCtx.isValid then spanIDString spanCtx.spanID else ""

/-! ## Config model (part_000) -/

/-- `LogLevel` (part_000 lines 3-12). -/
inductive LogLevel
  | debug
  | info
  | warn
  | error
  | fatal
deriving Repr, DecidableEq

/-- The ordinal of a level; the `iota` values of part_000.  The zapcore
levels that `NewLogger` maps these to (logger.go lines 20-34) are ordered
the same way, so level comparison is faithfully done on these ordinals. -/
def LogLevel.toNat : LogLevel → Nat
  | .debug => 0
  | .info => 1
  | .warn => 2
  | .error => 3
  | .fatal => 4

/-! ## Logger facade (logger.go)

`zap.Field` values reaching the backend are either `zap.String` pairs (the
trace correlation fields) or opaque values from callers (`zap.Any`,
`zap.Error`, …); only the key and a value payload matter to the claims. -/

/-- A `zap.Field` value payload. -/
inductive FieldValue
  | str : String → FieldValue
  | anyVal : String → FieldValue
deriving Repr, DecidableEq

/-- A `zap.Field`: key plus payload. -/
structure Field where
  key : String
  val : FieldValue
deriving Repr, DecidableEq

/-- A log entry as received by the zap core's sink: level, message, and the
full field set (the core's bound fields followed by the call's fields). -/
structure Entry where
  level : LogLevel
  message : String
  fields : List Field
deriving Repr, DecidableEq

/-- The `zap.Logger` backend as configured by `NewLogger`: a level-filtered
core plus the structured fields bound via `zap.Logger.With`.  Encoder,
sinks and caller-skip options do not affect which fields are emitted. -/
structure ZapLogger where
  level : LogLevel
  boundFields : List Field
deriving Repr, DecidableEq

/-- `zap.Logger.With`: clones the logger, appending fields to the core's
bound fields; the receiver is left untouched. -/
def ZapLogger.withf (z : ZapLogger) (fields : List Field) : ZapLogger :=
  { z with boundFields := z.boundFields ++ fields }

/-- The zap core's level gate: a message at `lvl` passes iff
`lvl >= configured level`. -/
def ZapLogger.levelEnabled (z : ZapLogger) (lvl : LogLevel) : Bool :=
  decide (z.level.toNat ≤ lvl.toNat)

/-- A zap log call: if the level gate passes, the sink receives an entry
whose field set is the bound fields followed by the call fields; otherwise
nothing is emitted. -/
def ZapLogger.write (z : ZapLogger) (lvl : LogLevel) (msg : String)
    (fields : List Field) : Option Entry :=
  if z.levelEnabled lvl then some ⟨lvl, msg, z.boundFields ++ fields⟩ else none

/-- The `Logger` facade (logger.go lines 13-16). -/
structure Logger where
  logger : ZapLogger
deriving Repr, DecidableEq

/-- `Logger.With` (logger.go lines 104-107). -/
def Logger.With (l : Logger) (fields : List Field) : Logger :=
  ⟨l.logger.withf fields⟩

/-- `Logger.WithFields` (logger.go lines 110-116).  Go iterates the map in
unspecified order; the embedding takes the key/value pairs as a list, fixing
one enumeration order. -/
def Logger.WithFields (l : Logger) (fields : List (String × FieldValue)) : Logger :=
  let zapFields := fields.map fun kv => Field.mk kv.1 kv.2
  ⟨l.logger.withf zapFields⟩

/-- `getSkippedLogger` (logger.go lines 119-122): `AddCallerSkip` only
adjusts caller metadata, not level or fields, so it is the identity here. -/
def Logger.getSkippedLogger (l : Logger) : ZapLogger := l.logger

/-- `extractTraceFields` (logger.go lines 155-165). -/
def extractTraceFields (ctx : Context) : List Field :=
  let fields : List Field := []
  let spanCtx := SpanContextFromContext ctx
  if spanCtx.isValid then
    fields ++ [⟨"trace_id", .str (traceIDString spanCtx.traceID)⟩,
               ⟨"span_id", .str (spanIDString spanCtx.spanID)⟩]
  else fields

/-- `Logger.Debug` (logger.go lines 125-128). -/
def Logger.Debug (l : Logger) (ctx : Context) (msg : String)
    (fields : List Field) : Option Entry :=
  let fields := fields ++ extractTraceFields ctx
  l.getSkippedLogger.write .debug msg fields

/-- `Logger.Info` (logger.go lines 131-134). -/
def Logger.Info (l : Logger) (ctx : Context) (msg : String)
    (fields : List Field) : Option Entry :=
  let fields := fields ++ extractTraceFields ctx
  l.getSkippedLogger.write .info msg fields

/-- `Logger.Warn` (logger.go lines 137-140). -/
def Logger.Warn (l : Logger) (ctx : Context) (msg : String)
    (fields : List Field) : Option Entry :=
  let fields := fields ++ extractTraceFields ctx
  l.getSkippedLogger.write .warn msg fields

/-- `Logger.Error` (logger.go lines 143-146). -/
def Logger.Error (l : Logger) (ctx : Context) (msg : String)
    (fields : List Field) : Option Entry :=
  let fields := fields ++ extractTraceFields ctx
  l.getSkippedLogger.write .error msg fields

/-- `Logger.Fatal` (logger.go lines 149-152); the subsequent process exit
is outside the embedding, the emitted entry is modelled. -/
def Logger.Fatal (l : Logger) (ctx : Context) (msg : String)
    (fields : List Field) : Option Entry :=
  let fields := fields ++ extractTraceFields ctx
  l.getSkippedLogger.write .fatal msg fields

/-- Selector for the five level methods, to quantify over the level. -/
def Logger.logMethod : LogLevel → Logger → Context → String → List Field → Option Entry
  | .debug => Logger.Debug
  | .info => Logger.Info
  | .warn => Logger.Warn
  | .error => Logger.Error
  | .fatal => Logger.Fatal

/-- Whether a field set contains a field with the given key. -/
def hasKey (fields : List Field) (k : String) : Bool :=
  fields.any fun f => f.key == k

/-! ## Metrics facade (metrics.go)

The backend meter is an interface field of `Metrics` (metrics.go line 19).
`NewMetrics` only assigns it on the enabled path (lines 66-69); on the
disabled path (lines 29-34) the field keeps its zero value, a nil
interface, so any method call through it panics.  `meterPresent` records
whether the field was assigned.  Backend instrument creation
(`meter.Int64Counter` etc.) is modelled as always succeeding when the
meter is present: the SDK's error returns (the `if err != nil` arms at
lines 94-96, 131-133, 167-180) concern invalid instrument names and
conflicting registrations, which the model does not exercise.  The gauge
observer callback (lines 171-177) carries no data the claims consult and
is elided. -/

/-- An instrument registered with the backend meter.  `id` is the backend's
registration identity (fresh per creation call); counters and gauges carry
an empty unit. -/
structure Instrument where
  id : Nat
  name : String
  description : String
  unitLabel : String
deriving Repr, DecidableEq

/-- Outcome of a metrics operation: a normal Go return, or the runtime
panic raised by calling a method on the nil meter interface. -/
inductive MResult (α : Type)
  | ok : α → MResult α
  | nilMeterPanic : MResult α
deriving Repr, DecidableEq

/-- The `Metrics` facade state (metrics.go lines 17-24) together with the
observable state of its backend meter: `registered` is the meter's
registration log, `counterAdds`/`histRecords` the measurements delivered to
backend instruments.  Note the struct has no mutex field. -/
structure Metrics where
  meterPresent : Bool
  nextId : Nat
  registered : List Instrument
  counters : List (String × Instrument)
  gauges : List (String × Instrument)
  histograms : List (String × Instrument)
  counterAdds : List (Nat × Int)
  histRecords : List (Nat × ℚ)
deriving Repr, DecidableEq

/-- Go map assignment `mp[k] = v`: overwrites the existing entry or
appends a new one. -/
def mapAssign (mp : List (String × Instrument)) (k : String) (v : Instrument) :
    List (String × Instrument) :=
  if (mp.lookup k).isSome then
    mp.map fun kv => if kv.1 == k then (k, v) else kv
  else mp ++ [(k, v)]

/-- `NewMetrics` (metrics.go lines 27-77), for the `Enabled` flag of the
config.  The disabled branch (lines 28-35) builds the struct with empty
maps and never assigns `meter`; the enabled branch is taken on its success
path (resource/exporter construction succeeded) and assigns the meter. -/
def NewMetrics (enabled : Bool) : Metrics :=
  if enabled then ⟨true, 0, [], [], [], [], [], []⟩
  else ⟨false, 0, [], [], [], [], [], []⟩

/-- `Metrics.CreateCounter` (metrics.go lines 85-100). -/
def Metrics.CreateCounter (m : Metrics) (name description : String) :
    MResult Instrument × Metrics :=
  match m.counters.lookup name with
  | some counter => (.ok counter, m)
  | none =>
    if m.meterPresent then
      let counter : Instrument := ⟨m.nextId, name, description, ""⟩
      (.ok counter,
        { m with nextId := m.nextId + 1,
                 registered := m.registered ++ [counter],
                 counters := mapAssign m.counters name counter })
    else (.nilMeterPanic, m)

/-- `Metrics.IncrementCounter` (metrics.go lines 103-118).  `counter.Add`
is recorded in `counterAdds`; a panic from `CreateCounter` propagates. -/
def Metrics.IncrementCounter (m : Metrics) (name : String) (value : Int) :
    MResult Unit × Metrics :=
  match m.counters.lookup name with
  | some counter =>
      (.ok (), { m with counterAdds := m.counterAdds ++ [(counter.id, value)] })
  | none =>
    match m.CreateCounter name ("Counter for " ++ name) with
    | (.ok counter, m') =>
        (.ok (), { m' with counterAdds := m'.counterAdds ++ [(counter.id, value)] })
    | (.nilMeterPanic, m') => (.nilMeterPanic, m')

/-- `Metrics.CreateHistogram` (metrics.go lines 121-137). -/
def Metrics.CreateHistogram (m : Metrics) (name description unitLabel : String) :
    MResult Instrument × Metrics :=
  match m.histograms.lookup name with
  | some histogram => (.ok histogram, m)
  | none =>
    if m.meterPresent then
      let histogram : Instrument := ⟨m.nextId, name, description, unitLabel⟩
      (.ok histogram,
        { m with nextId := m.nextId + 1,
                 registered := m.registered ++ [histogram],
                 histograms := mapAssign m.histograms name histogram })
    else (.nilMeterPanic, m)

/-- `Metrics.RecordHistogram` (metrics.go lines 140-155). -/
def Metrics.RecordHistogram (m : Metrics) (name : String) (value : ℚ) :
    MResult Unit × Metrics :=
  match m.histograms.lookup name with
  | some histogram =>
      (.ok (), { m with histRecords := m.histRecords ++ [(histogram.id, value)] })
  | none =>
    match m.CreateHistogram name ("Duration of " ++ name) "s" with
    | (.ok histogram, m') =>
        (.ok (), { m' with histRecords := m'.histRecords ++ [(histogram.id, value)] })
    | (.nilMeterPanic, m') => (.nilMeterPanic, m')

/-- `Metrics.CreateGauge` (metrics.go lines 158-184); the observer callback
argument is elided (see the section comment). -/
def Metrics.CreateGauge (m : Metrics) (name description : String) :
    MResult Instrument × Metrics :=
  match m.gauges.lookup name with
  | some gauge => (.ok gauge, m)
  | none =>
    if m.meterPresent then
      let gauge : Instrument := ⟨m.nextId, name, description, ""⟩
      (.ok gauge,
        { m with nextId := m.nextId + 1,
                 registered := m.registered ++ [gauge],
                 gauges := mapAssign m.gauges name gauge })
    else (.nilMeterPanic, m)

/-- Invoking the closure returned by `Metrics.MeasureDuration`
(metrics.go lines 187-204) with the elapsed wall-clock seconds it computes.
The closure returns nothing; creation errors are printed and swallowed, but
the nil-meter panic propagates. -/
def Metrics.MeasureDurationStop (m : Metrics) (name : String) (elapsedSeconds : ℚ) :
    MResult Unit × Metrics :=
  match m.histograms.lookup name with
  | some histogram =>
      (.ok (), { m with histRecords := m.histRecords ++ [(histogram.id, elapsedSeconds)] })
  | none =>
    match m.CreateHistogram name ("Duration of " ++ name) "s" with
    | (.ok histogram, m') =>
        (.ok (), { m' with histRecords := m'.histRecords ++ [(histogram.id, elapsedSeconds)] })
    | (.nilMeterPanic, m') => (.nilMeterPanic, m')

/-! ### Interleaving model of `CreateCounter` first use (for §5's mutual
exclusion requirement)

The body of `CreateCounter` decomposes into three shared-memory steps, none
of which is protected by any lock (the `Metrics` struct holds none): the
map read at line 86, the meter registration at lines 90-93, and the map
write at line 98.  Two goroutines running the first use for the same name
are modelled as two program counters over a shared `Metrics` value with an
explicit schedule. -/

/-- Program counter of one goroutine inside `CreateCounter`. -/
inductive ThreadPC
  | beforeCheck
  | beforeCreate
  | beforeInsert (inst : Instrument)
  | done (inst : Instrument)
  | panicked
deriving Repr, DecidableEq

/-- One atomic step of `CreateCounter name description` by one goroutine. -/
def raceStep (name description : String) : ThreadPC → Metrics → ThreadPC × Metrics
  | .beforeCheck, m =>
      match m.counters.lookup name with
      | some counter => (.done counter, m)
      | none => (.beforeCreate, m)
  | .beforeCreate, m =>
      if m.meterPresent then
        let counter : Instrument := ⟨m.nextId, name, description, ""⟩
        (.beforeInsert counter,
          { m with nextId := m.nextId + 1, registered := m.registered ++ [counter] })
      else (.panicked, m)
  | .beforeInsert inst, m =>
      (.done inst, { m with counters := mapAssign m.counters name inst })
  | .done inst, m => (.done inst, m)
  | .panicked, m => (.panicked, m)

/-- Which of the two goroutines takes the next step. -/
inductive ThreadId
  | A
  | B
deriving Repr, DecidableEq

/-- State of the two-goroutine system: both program counters plus the
shared `Metrics` value. -/
structure RaceState where
  threadA : ThreadPC
  threadB : ThreadPC
  shared : Metrics
deriving Repr, DecidableEq

/-- Run a schedule of interleaved steps of `CreateCounter name description`
by two goroutines. -/
def raceRun (name description : String) : List ThreadId → RaceState → RaceState
  | [], s => s
  | .A :: rest, s =>
      let (pc, m) := raceStep name description s.threadA s.shared
      raceRun name description rest ⟨pc, s.threadB, m⟩
  | .B :: rest, s =>
      let (pc, m) := raceStep name description s.threadB s.shared
      raceRun name description rest ⟨s.threadA, pc, m⟩

/-! ## Tracing setup: sampler selection (part_001 lines 68-129)

Go's `float64` sampling rate is modelled as `ℚ`: every finite float is a
rational, the code performs only the comparisons at lines 101 and 103 (no
float arithmetic), and those comparisons agree with the rational order. -/

/-- `TracingConfig` (part_000 lines 22-30). -/
structure TracingConfig where
  ServiceName : String
  ServiceVersion : String
  Environment : String
  Endpoint : String
  Enabled : Bool
  SamplingRate : ℚ
deriving Repr, DecidableEq

/-- The samplers the tracer provider can be configured with. -/
inductive Sampler
  | alwaysSample
  | neverSample
  | traceIDRatioBased (ratio : ℚ)
deriving Repr, DecidableEq

/-- The sampler installed by `setupTracing` (part_001 lines 99-107), on the
success path of resource and exporter creation; `none` when tracing is
disabled (lines 70-74: the provider, hence the sampler, is never built). -/
def setupTracingSampler (config : TracingConfig) : Option Sampler :=
  if !config.Enabled then none
  else some (
    if config.SamplingRate ≥ 1 then Sampler.alwaysSample
    else if config.SamplingRate ≤ 0 then Sampler.neverSample
    else Sampler.traceIDRatioBased config.SamplingRate)

/-! ## Orchestrator (part_001 lines 20-66)

The collaborator constructions (`NewLogger`, `setupTracing`, `NewMetrics`)
can fail for environment reasons (file open, resource/exporter creation);
the model takes their outcomes as parameters and records, as an event
trace, which constructions were attempted and which shutdown procedures
were invoked with which context. -/

/-- Context tokens: just enough identity to tell which `context.Context`
value each call receives.  `initial` stands for the context passed to
`InitializeObservabilityProvider`; `withTimeout p s` for the context
`context.WithTimeout` derives from `p` with an `s`-second deadline. -/
inductive CtxTag
  | initial
  | background
  | withTimeout (parent : CtxTag) (seconds : Nat)
deriving Repr, DecidableEq

/-- Events observable during initialization. `loggerTeardownCall` is never
emitted by the code; it is present so its absence is expressible. -/
inductive InitEvent
  | newLoggerCall
  | setupTracingCall
  | newMetricsCall
  | tracerShutdownCall (ctx : CtxTag)
  | loggerTeardownCall
deriving Repr, DecidableEq

/-- Outcomes of the three collaborator constructions during one
initialization run. -/
structure InitEnv where
  loggerResult : Except String Logger
  tracerResult : Except String Tracer
  metricsResult : Except String Metrics

/-- `ObservabilityProvider` (second file section of metrics.go, lines
207-214 of the concatenation). -/
structure ObservabilityProvider where
  logger : Logger
  tracer : Tracer
  metrics : Metrics
  serviceName : String
  serviceVersion : String

/-- `InitializeObservabilityProvider` (part_001 lines 20-66): result and
event trace.  Error wrapping `fmt.Errorf("...: %w", err)` is modelled as
prefixing the stage message. -/
def InitializeObservabilityProvider (env : InitEnv) (ctx : CtxTag)
    (tracingConfig : TracingConfig) :
    Except String ObservabilityProvider × List InitEvent :=
  match env.loggerResult with
  | .error e =>
      (.error ("failed to initialize logger: " ++ e), [.newLoggerCall])
  | .ok logger =>
    match env.tracerResult with
    | .error e =>
        (.error ("failed to initialize tracer: " ++ e),
         [.newLoggerCall, .setupTracingCall])
    | .ok tracer =>
      match env.metricsResult with
      | .error e =>
          (.error ("failed to initialize metrics: " ++ e),
           [.newLoggerCall, .setupTracingCall, .newMetricsCall,
            .tracerShutdownCall ctx])
      | .ok metrics =>
          (.ok ⟨logger, tracer, metrics, tracingConfig.ServiceName,
                tracingConfig.ServiceVersion⟩,
           [.newLoggerCall, .setupTracingCall, .newMetricsCall])

/-! ### The cleanup procedure (part_001 lines 41-56) -/

/-- Events observable while the returned cleanup procedure runs. -/
inductive CleanupEvent
  | meterProviderShutdownCall (ctx : CtxTag)
  | tracerProviderShutdownCall (ctx : CtxTag)
  | loggerSyncCall
  | logErrorCall (msg : String)
  | printfCall (msg : String)
deriving Repr, DecidableEq

/-- Outcomes of the backend shutdown/sync calls during one cleanup run. -/
structure ShutdownEnv where
  meterProviderShutdownErr : Option String
  tracerProviderShutdownErr : Option String
  loggerSyncErr : Option String

/-- The shutdown closure stored by `NewMetrics`: on the disabled path
(metrics.go line 33) it returns nil touching no backend; on the enabled
path (lines 73-75) it calls `meterProvider.Shutdown` with the context
`NewMetrics` captured at initialization time — `Metrics.Shutdown`
(lines 80-82) ignores the context it is passed. -/
structure MetricsShutdownHandle where
  enabled : Bool
  capturedCtx : CtxTag
deriving Repr, DecidableEq

/-- `Metrics.Shutdown` (metrics.go lines 80-82) invoked with `_ctx`: runs
the stored closure, which ignores `_ctx`. -/
def MetricsShutdownHandle.run (h : MetricsShutdownHandle) (env : ShutdownEnv)
    (_ctx : CtxTag) : Option String × List CleanupEvent :=
  if h.enabled then
    (env.meterProviderShutdownErr, [.meterProviderShutdownCall h.capturedCtx])
  else (none, [])

/-- The tracer shutdown function returned by `setupTracing`: the no-op at
part_001 line 73 when tracing is disabled, `tp.Shutdown` (line 128)
otherwise, which does receive the context it is passed. -/
def tracerShutdownRun (tracingEnabled : Bool) (env : ShutdownEnv)
    (ctx : CtxTag) : Option String × List CleanupEvent :=
  if tracingEnabled then
    (env.tracerProviderShutdownErr, [.tracerProviderShutdownCall ctx])
  else (none, [])

/-- `Logger.Sync` (logger.go lines 168-170): flushes the zap logger; takes
no context. -/
def loggerSyncRun (env : ShutdownEnv) : Option String × List CleanupEvent :=
  (env.loggerSyncErr, [.loggerSyncCall])

/-- The cleanup closure (part_001 lines 41-56): derives one 5-second
timeout context from `context.Background()`, then runs metrics shutdown,
tracer shutdown and logger sync in sequence, logging each failure
(`logger.Error` for the first two, `fmt.Printf` for sync) and never
aborting. -/
def cleanup (mh : MetricsShutdownHandle) (tracingEnabled : Bool)
    (env : ShutdownEnv) : List CleanupEvent :=
  let ctx := CtxTag.withTimeout .background 5
  let r1 := mh.run env ctx
  let ev1 := r1.2 ++ (match r1.1 with
    | some e => [CleanupEvent.logErrorCall ("Error shutting down metrics: " ++ e)]
    | none => [])
  let r2 := tracerShutdownRun tracingEnabled env ctx
  let ev2 := r2.2 ++ (match r2.1 with
    | some e => [CleanupEvent.logErrorCall ("Error shutting down tracer: " ++ e)]
    | none => [])
  let r3 := loggerSyncRun env
  let ev3 := r3.2 ++ (match r3.1 with
    | some e => [CleanupEvent.printfCall ("Error syncing logger: " ++ e)]
    | none => [])
  ev1 ++ ev2 ++ ev3

/-- The cleanup procedure as assembled for a provider initialized with
context `initCtx`: part_001 line 34 passes the initialization context to
`NewMetrics`, so the metrics shutdown closure captured `initCtx`. -/
def initCleanup (initCtx : CtxTag) (metricsEnabled tracingEnabled : Bool)
    (env : ShutdownEnv) : List CleanupEvent :=
  cleanup ⟨metricsEnabled, initCtx⟩ tracingEnabled env

/-- The three backend shutdown/sync steps, as opposed to failure-report
events. -/
def CleanupEvent.isShutdownStep : CleanupEvent → Bool
  | .meterProviderShutdownCall _ => true
  | .tracerProviderShutdownCall _ => true
  | .loggerSyncCall => true
  | .logErrorCall _ => false
  | .printfCall _ => false

theorem hexChars_length (d v : Nat) : (hexChars d v).length = d := by
  induction d generalizing v with
  | zero => rfl
  | succ d ih => simp [hexChars, ih]

theorem traceIDString_length (t : Nat) : (traceIDString t).length = 32 := by
  simp [traceIDString, String.length, hexChars_length]

theorem spanIDString_length (s : Nat) : (spanIDString s).length = 16 := by
  simp [spanIDString, String.length, hexChars_length]

theorem traceIDString_ne_empty (t : Nat) : traceIDString t ≠ "" := by
  intro h
  have := traceIDString_length t
  rw [h] at this
  simp [String.length] at this

theorem spanIDString_ne_empty (s : Nat) : spanIDString s ≠ "" := by
  intro h
  have := spanIDString_length s
  rw [h] at this
  simp [String.length] at this

theorem lookup_append (l₁ l₂ : List (String × Instrument)) (k : String) :
    (l₁ ++ l₂).lookup k = ((l₁.lookup k).orElse fun _ => l₂.lookup k) := by
  induction l₁ with
  | nil => simp [List.lookup]
  | cons a l ih =>
      cases a with
      | mk k' v =>
        by_cases h : k == k'
        · simp [List.lookup, h]
        · simp [List.lookup, h, ih]

theorem mapAssign_of_lookup_none {mp : List (String × Instrument)} {k : String}
    (h : mp.lookup k = none) (v : Instrument) :
    mapAssign mp k v = mp ++ [(k, v)] := by
  simp [mapAssign, h]

/-- Each of the five level methods is zap `write` at its level on the
caller's fields followed by the extracted trace fields. -/
theorem logMethod_write (lvl : LogLevel) (l : Logger) (ctx : Context)
    (msg : String) (fs : List Field) :
    Logger.logMethod lvl l ctx msg fs
      = l.logger.write lvl msg (fs ++ extractTraceFields ctx) := by
  cases lvl <;> rfl

/-- Claim C10: the package-level functions `GetTraceID` and `GetSpanID`
return exactly the same string as the `Tracer` methods `GetTraceID` and
`GetSpanID` on the same context, for every `Tracer` instance. -/
theorem claim_C10_package_functions_match_tracer_methods :
    ∀ (t : Tracer) (ctx : Context),
      t.GetTraceID ctx = GetTraceID ctx ∧ t.GetSpanID ctx = GetSpanID ctx :=
  fun _ _ => ⟨rfl, rfl⟩

/-- Claim C6: `GetTraceID`/`GetSpanID` (package functions and `Tracer`
methods alike) return the empty string when the context carries no valid
span context, and the non-empty fixed-format hex encoding of the active
span context's identifiers when it does. -/
theorem claim_C6_trace_id_extraction :
    ∀ (ctx : Context) (t : Tracer),
      ((SpanContextFromContext ctx).isValid = false →
        GetTraceID ctx = "" ∧ GetSpanID ctx = "" ∧
        t.GetTraceID ctx = "" ∧ t.GetSpanID ctx = "") ∧
      ((SpanContextFromContext ctx).isValid = true →
        GetTraceID ctx = traceIDString (SpanContextFromContext ctx).traceID ∧
        GetTraceID ctx ≠ "" ∧
        GetSpanID ctx = spanIDString (SpanContextFromContext ctx).spanID ∧
        GetSpanID ctx ≠ "" ∧
        t.GetTraceID ctx = GetTraceID ctx ∧ t.GetSpanID ctx = GetSpanID ctx) := by
  intro ctx t
  constructor
  · intro h
    refine ⟨?_, ?_, ?_, ?_⟩ <;>
      simp [GetTraceID, GetSpanID, Tracer.GetTraceID, Tracer.GetSpanID, h]
  · intro h
    refine ⟨?_, ?_, ?_, ?_, rfl, rfl⟩ <;>
      simp [GetTraceID, GetSpanID, h, traceIDString_ne_empty, spanIDString_ne_empty]

theorem claim_C6_witness :
    GetTraceID ⟨⟨0, 0⟩⟩ = "" ∧ GetTraceID ⟨⟨1, 2⟩⟩ ≠ "" ∧ GetSpanID ⟨⟨1, 2⟩⟩ ≠ "" :=
  ⟨((claim_C6_trace_id_extraction ⟨⟨0, 0⟩⟩ ⟨"svc"⟩).1 (by decide)).1,
   ((claim_C6_trace_id_extraction ⟨⟨1, 2⟩⟩ ⟨"svc"⟩).2 (by decide)).2.1,
   ((claim_C6_trace_id_extraction ⟨⟨1, 2⟩⟩ ⟨"svc"⟩).2 (by decide)).2.2.2.1⟩

/-- Claim C4: with tracing enabled, the sampler selected by `setupTracing`
is always-sample for rate ≥ 1, never-sample for rate ≤ 0, and the
trace-ID-ratio-based sampler at the configured rate for rates strictly
between 0 and 1. -/
theorem claim_C4_sampler_selection :
    ∀ config : TracingConfig, config.Enabled = true →
      (1 ≤ config.SamplingRate →
        setupTracingSampler config = some Sampler.alwaysSample) ∧
      (config.SamplingRate ≤ 0 →
        setupTracingSampler config = some Sampler.neverSample) ∧
      (0 < config.SamplingRate → config.SamplingRate < 1 →
        setupTracingSampler config
          = some (Sampler.traceIDRatioBased config.SamplingRate)) := by
  intro config hEn
  refine ⟨?_, ?_, ?_⟩
  · intro h
    simp [setupTracingSampler, hEn, ge_iff_le, h]
  · intro h
    have h1 : ¬ (1 : ℚ) ≤ config.SamplingRate := by linarith
    simp [setupTracingSampler, hEn, ge_iff_le, h, h1]
  · intro h0 h1
    have ha : ¬ (1 : ℚ) ≤ config.SamplingRate := by linarith
    have hb : ¬ config.SamplingRate ≤ 0 := by linarith
    simp [setupTracingSampler, hEn, ge_iff_le, ha, hb]

theorem claim_C4_witness :
    setupTracingSampler ⟨"svc", "1.0", "prod", "collector:4317", true, 2⟩
      = some Sampler.alwaysSample ∧
    setupTracingSampler ⟨"svc", "1.0", "prod", "collector:4317", true, -1⟩
      = some Sampler.neverSample ∧
    setupTracingSampler ⟨"svc", "1.0", "prod", "collector:4317", true, 1/2⟩
      = some (Sampler.traceIDRatioBased (1/2)) :=
  ⟨(claim_C4_sampler_selection _ rfl).1 (by norm_num),
   (claim_C4_sampler_selection _ rfl).2.1 (by norm_num),
   (claim_C4_sampler_selection _ rfl).2.2 (by norm_num) (by norm_num)⟩

/-- Claim C7: for every log call at an emitted level, the field set passed
to the backend is the caller's fields enriched with exactly the `trace_id`
and `span_id` correlation fields when the call's context carries a valid
span context, and with nothing (and no error — the call is total) when it
does not; when neither the bound nor the call fields already use those
keys, the entry contains them if and only if the span context is valid. -/
theorem claim_C7_log_trace_correlation :
    ∀ (lvl : LogLevel) (l : Logger) (ctx : Context) (msg : String)
      (fs : List Field) (e : Entry),
      Logger.logMethod lvl l ctx msg fs = some e →
      e.fields = l.logger.boundFields ++ fs ++ extractTraceFields ctx ∧
      ((SpanContextFromContext ctx).isValid = true →
        extractTraceFields ctx =
          [⟨"trace_id", .str (traceIDString (SpanContextFromContext ctx).traceID)⟩,
           ⟨"span_id", .str (spanIDString (SpanContextFromContext ctx).spanID)⟩] ∧
        hasKey e.fields "trace_id" = true ∧ hasKey e.fields "span_id" = true) ∧
      ((SpanContextFromContext ctx).isValid = false →
        extractTraceFields ctx = [] ∧
        e.fields = l.logger.boundFields ++ fs) ∧
      (hasKey (l.logger.boundFields ++ fs) "trace_id" = false →
        hasKey (l.logger.boundFields ++ fs) "span_id" = false →
        ((hasKey e.fields "trace_id" = true ∨ hasKey e.fields "span_id" = true)
          ↔ (SpanContextFromContext ctx).isValid = true)) := by
  intro lvl l ctx msg fs e h
  rw [logMethod_write] at h
  unfold ZapLogger.write at h
  split at h
  case isFalse => exact absurd h (by simp)
  case isTrue hlv =>
    have he := Option.some.inj h
    subst he
    refine ⟨by simp, ?_, ?_, ?_⟩
    · intro hv
      refine ⟨by simp [extractTraceFields, hv], ?_, ?_⟩ <;>
        simp [hasKey, extractTraceFields, hv, List.any_append]
    · intro hv
      exact ⟨by simp [extractTraceFields, hv], by simp [extractTraceFields, hv]⟩
    · intro h1 h2
      simp only [hasKey, List.any_append, Bool.or_eq_false_iff] at h1 h2
      cases hv : (SpanContextFromContext ctx).isValid
      · simp [hasKey, List.any_append, extractTraceFields, hv, h1, h2]
      · simp [hasKey, List.any_append, extractTraceFields, hv]

theorem claim_C7_witness :
    (Logger.Info ⟨⟨.info, []⟩⟩ ⟨⟨3, 4⟩⟩ "started" []).isSome = true ∧
    hasKey ((Logger.Info ⟨⟨.info, []⟩⟩ ⟨⟨3, 4⟩⟩ "started" []).getD
      ⟨.info, "", []⟩).fields "trace_id" = true := by
  refine ⟨rfl, ?_⟩
  have h := claim_C7_log_trace_correlation .info ⟨⟨.info, []⟩⟩ ⟨⟨3, 4⟩⟩ "started" []
    ((Logger.Info ⟨⟨.info, []⟩⟩ ⟨⟨3, 4⟩⟩ "started" []).getD ⟨.info, "", []⟩) rfl
  exact (h.2.1 (by decide)).2.1

/-- Claim C9: deriving a child logger with `With`/`WithFields` yields a new
facade value whose core carries the parent's bound fields followed by the
extra fields, with the backend configuration (level gate) unchanged; the
parent's own log emissions are exactly what they were without the
derivation (the formula does not mention the derived fields). -/
theorem claim_C9_with_derives_child_without_mutating_parent :
    ∀ (l : Logger) (fields : List Field) (kvs : List (String × FieldValue))
      (lvl : LogLevel) (ctx : Context) (msg : String) (callFields : List Field),
      (Logger.With l fields).logger.boundFields = l.logger.boundFields ++ fields ∧
      (Logger.With l fields).logger.level = l.logger.level ∧
      (Logger.WithFields l kvs).logger.boundFields
        = l.logger.boundFields ++ kvs.map (fun kv => Field.mk kv.1 kv.2) ∧
      Logger.logMethod lvl (Logger.With l fields) ctx msg callFields
        = (if l.logger.levelEnabled lvl then
             some ⟨lvl, msg,
               (l.logger.boundFields ++ fields) ++ (callFields ++ extractTraceFields ctx)⟩
           else none) ∧
      Logger.logMethod lvl l ctx msg callFields
        = (if l.logger.levelEnabled lvl then
             some ⟨lvl, msg, l.logger.boundFields ++ (callFields ++ extractTraceFields ctx)⟩
           else none) := by
  intro l fields kvs lvl ctx msg callFields
  refine ⟨rfl, rfl, rfl, ?_, ?_⟩ <;> rw [logMethod_write] <;> rfl

/-- Claim C5: on a facade with a live meter, the first creation of an
instrument of a given kind under a name registers exactly one backend
instrument and caches it (the cache for that kind grows by exactly one
entry, mapped to that instrument), and every subsequent creation call with
the same name and kind returns the cached instrument and leaves the facade
— including the backend registration log — unchanged.  This is the
sequential (single-caller) behavior; see C8 for concurrent first use. -/
theorem claim_C5_create_once_caching :
    ∀ (m : Metrics) (name description unitLabel : String),
      m.meterPresent = true →
      ((m.counters.lookup name = none →
        ∃ inst m',
          m.CreateCounter name description = (.ok inst, m') ∧
          m'.counters.lookup name = some inst ∧
          m'.counters.length = m.counters.length + 1 ∧
          m'.registered = m.registered ++ [inst] ∧
          ∀ d2, m'.CreateCounter name d2 = (.ok inst, m')) ∧
       (∀ inst, m.counters.lookup name = some inst →
          m.CreateCounter name description = (.ok inst, m))) ∧
      ((m.histograms.lookup name = none →
        ∃ inst m',
          m.CreateHistogram name description unitLabel = (.ok inst, m') ∧
          m'.histograms.lookup name = some inst ∧
          m'.histograms.length = m.histograms.length + 1 ∧
          m'.registered = m.registered ++ [inst] ∧
          ∀ d2 u2, m'.CreateHistogram name d2 u2 = (.ok inst, m')) ∧
       (∀ inst, m.histograms.lookup name = some inst →
          m.CreateHistogram name description unitLabel = (.ok inst, m))) ∧
      ((m.gauges.lookup name = none →
        ∃ inst m',
          m.CreateGauge name description = (.ok inst, m') ∧
          m'.gauges.lookup name = some inst ∧
          m'.gauges.length = m.gauges.length + 1 ∧
          m'.registered = m.registered ++ [inst] ∧
          ∀ d2, m'.CreateGauge name d2 = (.ok inst, m')) ∧
       (∀ inst, m.gauges.lookup name = some inst →
          m.CreateGauge name description = (.ok inst, m))) := by
  intro m name description unitLabel hp
  refine ⟨⟨?_, ?_⟩, ⟨?_, ?_⟩, ⟨?_, ?_⟩⟩
  · intro hnone
    have hassign := mapAssign_of_lookup_none hnone
      (⟨m.nextId, name, description, ""⟩ : Instrument)
    have hlook : (mapAssign m.counters name ⟨m.nextId, name, description, ""⟩).lookup name
        = some ⟨m.nextId, name, description, ""⟩ := by
      rw [hassign, lookup_append, hnone]
      simp [List.lookup]
    refine ⟨⟨m.nextId, name, description, ""⟩,
      { m with nextId := m.nextId + 1,
               registered := m.registered ++ [⟨m.nextId, name, description, ""⟩],
               counters := mapAssign m.counters name ⟨m.nextId, name, description, ""⟩ },
      ?_, hlook, ?_, rfl, ?_⟩
    · simp [Metrics.CreateCounter, hnone, hp]
    · rw [hassign]; simp
    · intro d2
      simp [Metrics.CreateCounter, hlook]
  · intro inst hsome
    simp [Metrics.CreateCounter, hsome]
  · intro hnone
    have hassign := mapAssign_of_lookup_none hnone
      (⟨m.nextId, name, description, unitLabel⟩ : Instrument)
    have hlook : (mapAssign m.histograms name
          ⟨m.nextId, name, description, unitLabel⟩).lookup name
        = some ⟨m.nextId, name, description, unitLabel⟩ := by
      rw [hassign, lookup_append, hnone]
      simp [List.lookup]
    refine ⟨⟨m.nextId, name, description, unitLabel⟩,
      { m with nextId := m.nextId + 1,
               registered := m.registered ++ [⟨m.nextId, name, description, unitLabel⟩],
               histograms := mapAssign m.histograms name
                 ⟨m.nextId, name, description, unitLabel⟩ },
      ?_, hlook, ?_, rfl, ?_⟩
    · simp [Metrics.CreateHistogram, hnone, hp]
    · rw [hassign]; simp
    · intro d2 u2
      simp [Metrics.CreateHistogram, hlook]
  · intro inst hsome
    simp [Metrics.CreateHistogram, hsome]
  · intro hnone
    have hassign := mapAssign_of_lookup_none hnone
      (⟨m.nextId, name, description, ""⟩ : Instrument)
    have hlook : (mapAssign m.gauges name ⟨m.nextId, name, description, ""⟩).lookup name
        = some ⟨m.nextId, name, description, ""⟩ := by
      rw [hassign, lookup_append, hnone]
      simp [List.lookup]
    refine ⟨⟨m.nextId, name, description, ""⟩,
      { m with nextId := m.nextId + 1,
               registered := m.registered ++ [⟨m.nextId, name, description, ""⟩],
               gauges := mapAssign m.gauges name ⟨m.nextId, name, description, ""⟩ },
      ?_, hlook, ?_, rfl, ?_⟩
    · simp [Metrics.CreateGauge, hnone, hp]
    · rw [hassign]; simp
    · intro d2
      simp [Metrics.CreateGauge, hlook]
  · intro inst hsome
    simp [Metrics.CreateGauge, hsome]

theorem claim_C5_witness :
    ((NewMetrics true).CreateCounter "requests" "d").2.CreateCounter "requests" "d2"
      = (.ok ⟨0, "requests", "d", ""⟩,
         ((NewMetrics true).CreateCounter "requests" "d").2) :=
  (claim_C5_create_once_caching ((NewMetrics true).CreateCounter "requests" "d").2
      "requests" "d2" "u" (by decide)).1.2
    ⟨0, "requests", "d", ""⟩ (by decide)

/-- Claim C3 (code bug in metrics.go): on a facade constructed with
metrics disabled, the meter interface field is never assigned (lines
29-34), so the first use of every operation — `IncrementCounter`,
`RecordHistogram`, `CreateGauge`, the `MeasureDuration` stop closure, and
the create functions they delegate to — reaches a method call on the nil
meter and panics instead of succeeding as a no-op. -/
theorem claim_C3_disabled_metrics_ops_panic :
    ((NewMetrics false).IncrementCounter "requests" 1).1 = .nilMeterPanic ∧
    ((NewMetrics false).RecordHistogram "latency" 2).1 = .nilMeterPanic ∧
    ((NewMetrics false).CreateGauge "queue_depth" "depth").1 = .nilMeterPanic ∧
    ((NewMetrics false).MeasureDurationStop "op" 1).1 = .nilMeterPanic ∧
    ((NewMetrics false).CreateCounter "requests" "d").1 = .nilMeterPanic :=
  ⟨rfl, rfl, rfl, rfl, rfl⟩

/-- Claim C8 (code bug in metrics.go): the `Metrics` struct has no mutex,
so the check-cache/create/insert steps of `CreateCounter` interleave
freely.  Under the schedule check-A, check-B, create-A, insert-A,
create-B, insert-B, two concurrent first-use calls for the same name both
miss the cache and both register a backend instrument: the backend
registration log ends with two instruments for the name (duplicate
registration) and the cache ends holding only goroutine B's instrument,
while goroutine A holds a reference the cache no longer contains. -/
theorem claim_C8_unsynchronized_first_use_race :
    raceRun "requests" "Counter for requests"
        [.A, .B, .A, .A, .B, .B]
        ⟨.beforeCheck, .beforeCheck, NewMetrics true⟩
      = ⟨.done ⟨0, "requests", "Counter for requests", ""⟩,
         .done ⟨1, "requests", "Counter for requests", ""⟩,
         { meterPresent := true, nextId := 2,
           registered := [⟨0, "requests", "Counter for requests", ""⟩,
                          ⟨1, "requests", "Counter for requests", ""⟩],
           counters := [("requests", ⟨1, "requests", "Counter for requests", ""⟩)],
           gauges := [], histograms := [],
           counterAdds := [], histRecords := [] }⟩ := by
  decide

/-- Claim C1: initialization constructs logger, tracer, metrics in that
order with asymmetric partial-failure cleanup.  Logger failure returns the
logger-stage error with tracer and metrics construction never attempted
and no shutdown invoked; tracer failure after a successful logger returns
the tracing-stage error without any logger teardown (and without metrics
construction); metrics failure after a successful tracer invokes the
tracer's shutdown procedure (with the initialization context) before the
metrics-stage error is returned. -/
theorem claim_C1_init_order_and_partial_failure_cleanup :
    (∀ (e : String) (tr : Except String Tracer) (me : Except String Metrics)
       (ctx : CtxTag) (cfg : TracingConfig),
       (InitializeObservabilityProvider ⟨.error e, tr, me⟩ ctx cfg).1
           = .error ("failed to initialize logger: " ++ e) ∧
       InitEvent.setupTracingCall
           ∉ (InitializeObservabilityProvider ⟨.error e, tr, me⟩ ctx cfg).2 ∧
       InitEvent.newMetricsCall
           ∉ (InitializeObservabilityProvider ⟨.error e, tr, me⟩ ctx cfg).2 ∧
       ∀ c, InitEvent.tracerShutdownCall c
           ∉ (InitializeObservabilityProvider ⟨.error e, tr, me⟩ ctx cfg).2) ∧
    (∀ (l : Logger) (e : String) (me : Except String Metrics)
       (ctx : CtxTag) (cfg : TracingConfig),
       (InitializeObservabilityProvider ⟨.ok l, .error e, me⟩ ctx cfg).1
           = .error ("failed to initialize tracer: " ++ e) ∧
       InitEvent.loggerTeardownCall
           ∉ (InitializeObservabilityProvider ⟨.ok l, .error e, me⟩ ctx cfg).2 ∧
       InitEvent.newMetricsCall
           ∉ (InitializeObservabilityProvider ⟨.ok l, .error e, me⟩ ctx cfg).2 ∧
       ∀ c, InitEvent.tracerShutdownCall c
           ∉ (InitializeObservabilityProvider ⟨.ok l, .error e, me⟩ ctx cfg).2) ∧
    (∀ (l : Logger) (t : Tracer) (e : String) (ctx : CtxTag) (cfg : TracingConfig),
       InitializeObservabilityProvider ⟨.ok l, .ok t, .error e⟩ ctx cfg
         = (.error ("failed to initialize metrics: " ++ e),
            [.newLoggerCall, .setupTracingCall, .newMetricsCall,
             .tracerShutdownCall ctx])) := by
  refine ⟨?_, ?_, ?_⟩ <;> intros <;>
    simp [InitializeObservabilityProvider]

theorem claim_C1_witness :
    (InitializeObservabilityProvider
        ⟨.error "boom", .ok ⟨"svc"⟩, .ok (NewMetrics true)⟩ .initial
        ⟨"svc", "1.0", "prod", "collector:4317", true, 1⟩).1
      = .error ("failed to initialize logger: " ++ "boom") ∧
    InitializeObservabilityProvider
        ⟨.ok ⟨⟨.info, []⟩⟩, .ok ⟨"svc"⟩, .error "dial"⟩ .initial
        ⟨"svc", "1.0", "prod", "collector:4317", true, 1⟩
      = (.error ("failed to initialize metrics: " ++ "dial"),
         [.newLoggerCall, .setupTracingCall, .newMetricsCall,
          .tracerShutdownCall .initial]) :=
  ⟨(claim_C1_init_order_and_partial_failure_cleanup.1 "boom" (.ok ⟨"svc"⟩)
      (.ok (NewMetrics true)) .initial
      ⟨"svc", "1.0", "prod", "collector:4317", true, 1⟩).1,
   claim_C1_init_order_and_partial_failure_cleanup.2.2 ⟨⟨.info, []⟩⟩ ⟨"svc"⟩
      "dial" .initial ⟨"svc", "1.0", "prod", "collector:4317", true, 1⟩⟩

/-- Claim C2, counterexample: in a cleanup run for a provider initialized
with context `initial` (metrics and tracing enabled, every shutdown
succeeding), the very first backend call is the meter provider shutdown and
it receives the `initial` context captured at `NewMetrics` time — not the
5-second timeout context the cleanup created — so not all three shutdown
calls are guarded by the shared timeout context. -/
theorem claim_C2_counterexample_metrics_shutdown_context :
    (initCleanup .initial true true ⟨none, none, none⟩).head?
        = some (.meterProviderShutdownCall .initial) ∧
    CtxTag.initial ≠ CtxTag.withTimeout .background 5 :=
  ⟨rfl, by decide⟩

/-- Claim C2 as amended: the cleanup procedure runs the metrics shutdown,
then the tracer shutdown, then the logger sync, in that order and
unconditionally — each individual failure is logged (`logger.Error`, or
`fmt.Printf` for the sync failure) rather than raised, so an earlier
failure never prevents a later step.  One 5-second timeout context is
created for the run and passed to the metrics and tracer shutdown calls,
but only the tracer provider shutdown actually receives it: the metrics
shutdown closure ignores the passed context and uses the initialization
context it captured, and the logger sync takes no context at all. -/
theorem claim_C2_amended_cleanup_sequence :
    ∀ (env : ShutdownEnv) (initCtx : CtxTag),
      (initCleanup initCtx true true env).filter CleanupEvent.isShutdownStep
        = [.meterProviderShutdownCall initCtx,
           .tracerProviderShutdownCall (.withTimeout .background 5),
           .loggerSyncCall] ∧
      (∀ e, env.meterProviderShutdownErr = some e →
        CleanupEvent.logErrorCall ("Error shutting down metrics: " ++ e)
          ∈ initCleanup initCtx true true env) ∧
      (∀ e, env.tracerProviderShutdownErr = some e →
        CleanupEvent.logErrorCall ("Error shutting down tracer: " ++ e)
          ∈ initCleanup initCtx true true env) ∧
      (∀ e, env.loggerSyncErr = some e →
        CleanupEvent.printfCall ("Error syncing logger: " ++ e)
          ∈ initCleanup initCtx true true env) := by
  intro env initCtx
  obtain ⟨merr, terr, serr⟩ := env
  cases merr <;> cases terr <;> cases serr <;>
    simp [initCleanup, cleanup, MetricsShutdownHandle.run, tracerShutdownRun,
      loggerSyncRun, CleanupEvent.isShutdownStep]

theorem claim_C2_amended_witness :
    CleanupEvent.logErrorCall ("Error shutting down metrics: " ++ "m")
        ∈ initCleanup .initial true true ⟨some "m", some "t", some "s"⟩ ∧
    CleanupEvent.logErrorCall ("Error shutting down tracer: " ++ "t")
        ∈ initCleanup .initial true true ⟨some "m", some "t", some "s"⟩ ∧
    CleanupEvent.printfCall ("Error syncing logger: " ++ "s")
        ∈ initCleanup .initial true true ⟨some "m", some "t", some "s"⟩ :=
  ⟨(claim_C2_amended_cleanup_sequence ⟨some "m", some "t", some "s"⟩ .initial).2.1
      "m" rfl,
   (claim_C2_amended_cleanup_sequence ⟨some "m", some "t", some "s"⟩ .initial).2.2.1
      "t" rfl,
   (claim_C2_amended_cleanup_sequence ⟨some "m", some "t", some "s"⟩ .initial).2.2.2
      "s" rfl⟩

end Observability
